import Mathlib

/-!
# Verification of the weather-app resolution / unit-selection pipeline

Shallow embedding of the two source files of the repository:

* `src/weather_client.py` — `OpenWeatherClient` (construction, HTTP error
  translation, geocoding, current weather, forecast) and the pure helpers
  `choose_units_for_country` and `get_icon_url`.
* `src/Home.py` — the module-level query flow: input validation, cached
  location resolution (`resolve_loc`), unit selection, cached current-weather
  fetch (`fetch_current_weather`), the uncached forecast fetch, and the
  sunrise/sunset formatter `fmt_ts`.

Remote HTTP calls are modelled by a deterministic `World` of provider
responses; every client operation additionally returns the list of provider
calls it issued, so that claims about "no network call" / "number of provider
calls" become statements about that trace.  Streamlit's `st.cache_data`
memoisation is modelled by an explicit association-list cache with stored-at
timestamps and a TTL check.  Python falsiness of strings/`None` is modelled
explicitly (`""`/`Option.none`); `str.strip` is modelled by `pyStrip`
(ASCII whitespace).  Geographic coordinates are never computed with, only
passed through, so they are carried as integers.
-/

set_option autoImplicit false

/-- Python's `pat in s` substring test, over the underlying character lists
(the patterns used by the source are the nonempty literals `"섭씨"`, `"화씨"`). -/
def isSubstringOf (pat : List Char) : List Char → Bool
  | [] => pat.isEmpty
  | c :: rest => pat.isPrefixOf (c :: rest) || isSubstringOf pat rest

/-- `pat` occurs as a contiguous substring of `s` (python `pat in s`). -/
def pyIn (pat s : String) : Bool :=
  isSubstringOf pat.data s.data

/-- Python `s.strip()` (ASCII whitespace), defined over the character list so
it evaluates in the kernel. -/
def pyStrip (s : String) : String :=
  String.mk (((s.data.dropWhile Char.isWhitespace).reverse.dropWhile
    Char.isWhitespace).reverse)

/-- Python `s.upper()` (ASCII case mapping, which covers the country codes
the provider returns), defined over the character list so it evaluates in the
kernel. -/
def pyUpper (s : String) : String :=
  String.mk (s.data.map Char.toUpper)

/-- `weather_client.choose_units_for_country`: `None`/empty country code maps
to `"metric"`; otherwise `country_code.upper() in {"US", "LR", "MM"}` selects
`"imperial"`, everything else `"metric"`.  Pure function of its argument. -/
def choose_units_for_country (country_code : Option String) : String :=
  match country_code with
  | none => "metric"
  | some c =>
    if c = "" then "metric"
    else if pyUpper c = "US" ∨ pyUpper c = "LR" ∨ pyUpper c = "MM" then "imperial"
    else "metric"

/-- The inline unit selection of `Home.py` lines 132–134:
`"metric" if "섭씨" in unit_pref else "imperial" if "화씨" in unit_pref else auto_units`. -/
def select_units (unit_pref auto_units : String) : String :=
  if pyIn "섭씨" unit_pref then "metric"
  else if pyIn "화씨" unit_pref then "imperial"
  else auto_units

/-- The state held by a constructed `OpenWeatherClient`: the validated API key
and the normalised base URL. -/
structure Client where
  api_key : String
  base_url : String
deriving DecidableEq, Repr

/-- Python `a or b` on an optional string `a` (falsy = `None` or `""`). -/
def pyOrOpt (a b : Option String) : Option String :=
  match a with
  | some s => if s = "" then b else some s
  | none => b

/-- The error message raised by `OpenWeatherClient.__init__` on a missing key. -/
def missingKeyMsg : String :=
  "OpenWeather API 키가 없습니다. st.secrets 또는 환경변수를 설정하세요."

/-- Python `base_url.rstrip("/")`. -/
def rstripSlash (s : String) : String :=
  s.dropRightWhile (· = '/')

/-- `OpenWeatherClient.__init__`: `self.api_key = api_key or os.getenv("OPENWEATHER_API_KEY")`;
raises `ValueError` when the resulting key is falsy, otherwise stores the key
and `base_url.rstrip("/")`.  `env_key` is the value of the environment
variable `OPENWEATHER_API_KEY` (`none` when unset).  No network operation
occurs: the result is a pure function of the three arguments. -/
def OpenWeatherClient.init (api_key env_key : Option String)
    (base_url : String := "https://api.openweathermap.org/data/2.5") :
    Except String Client :=
  match pyOrOpt api_key env_key with
  | some k =>
    if k = "" then Except.error missingKeyMsg
    else Except.ok ⟨k, rstripSlash base_url⟩
  | none => Except.error missingKeyMsg

/-- A JSON value, as produced by `resp.json()`. -/
inductive Json where
  | null
  | bool (b : Bool)
  | num (n : Int)
  | str (s : String)
  | arr (xs : List Json)
  | obj (fields : List (String × Json))

/-- Field lookup on a JSON object; `none` for a non-object value (a python
`.get` on such a value raises `AttributeError`, which the source catches). -/
def Json.lookupField : Json → String → Option Json
  | Json.obj fields, key => fields.lookup key
  | _, _ => none

/-- An HTTP response as seen by `_request` / `geocode` after the `GET`:
the status code, the body parsed as JSON when parseable (`resp.json()`
raises otherwise, modelled by `none`), and the raw body text. -/
structure HttpResp where
  status_code : Nat
  json : Option Json
  text : String

/-- Outcome of `OpenWeatherClient._request` (and of the identical error
handling inlined into `geocode`): success carries the parsed body; a non-200
status raises `RuntimeError` carrying the status and a message
(`providerError`); a 200 response whose body is unparseable propagates the
JSON decode failure. -/
inductive ReqResult where
  | ok (data : Json)
  | providerError (status : Nat) (msg : Json)
  | decodeError

/-- The message computed on the error path of `_request`:
`data = resp.json(); msg = data.get("message", resp.text)`, with any
exception (unparseable body, or a non-dict body on which `.get` raises)
caught and replaced by `msg = resp.text`. -/
def requestErrMsg (resp : HttpResp) : Json :=
  match resp.json with
  | some (Json.obj fields) =>
    match (Json.obj fields).lookupField "message" with
    | some m => m
    | none => Json.str resp.text
  | _ => Json.str resp.text

/-- `OpenWeatherClient._request`, after the HTTP `GET` produced `resp`:
`if resp.status_code != 200` raise with status and message, else return
`resp.json()`. -/
def request (resp : HttpResp) : ReqResult :=
  if resp.status_code ≠ 200 then
    ReqResult.providerError resp.status_code (requestErrMsg resp)
  else
    match resp.json with
    | some d => ReqResult.ok d
    | none => ReqResult.decodeError

/-- Modelled from the spec's words, for comparison with `request`: the failure
message is "the provider-supplied message field, falling back to the raw
response body when the message field is absent or the body is unparseable as
JSON". -/
def specMessage (resp : HttpResp) : Json :=
  match resp.json with
  | some body =>
    match body.lookupField "message" with
    | some m => m
    | none => Json.str resp.text
  | none => Json.str resp.text

/-- C6 counterexample: the claim reads every success (2xx) status as
returning the parsed body, but `_request` treats every status other than 200
as a failure: a 201 response with a perfectly parseable JSON body raises the
typed provider failure instead of returning the body. -/
theorem request_201_not_ok :
    ¬(∀ resp : HttpResp, 200 ≤ resp.status_code → resp.status_code < 300 →
        ∀ d, resp.json = some d → request resp = ReqResult.ok d) := by
  intro h
  have h2 := h ⟨201, some (Json.obj []), "created"⟩ (by decide) (by decide)
      (Json.obj []) rfl
  have h3 : request ⟨201, some (Json.obj []), "created"⟩ =
      ReqResult.providerError 201 (Json.str "created") := rfl
  rw [h3] at h2
  exact ReqResult.noConfusion h2

/-- C6 (amended): every response with status other than exactly 200 is
translated into a typed failure carrying the status code and the
provider-supplied `message` field, falling back to the raw response body when
that field is absent or the body is unparseable as JSON (`specMessage` is the
spec-side description of that message); a status-200 response with a
parseable body returns the parsed JSON body. -/
theorem request_error_translation :
    (∀ resp : HttpResp, resp.status_code ≠ 200 →
        request resp = ReqResult.providerError resp.status_code (specMessage resp)) ∧
    (∀ resp : HttpResp, resp.status_code = 200 →
        ∀ d, resp.json = some d → request resp = ReqResult.ok d) := by
  constructor
  · intro resp h
    have hmsg : requestErrMsg resp = specMessage resp := by
      rcases hj : resp.json with _ | j
      · simp [requestErrMsg, specMessage, hj]
      · cases j <;> simp [requestErrMsg, specMessage, hj, Json.lookupField]
    simp [request, h, hmsg]
  · intro resp h d hd
    simp [request, h, hd]

/-- Witness for `request_error_translation`: a 404 with a `message` field
carries that message; a 500 with an unparseable body carries the raw text;
a 200 with a parseable body returns it. -/
theorem request_error_translation_witness :
    request ⟨404, some (Json.obj [("message", Json.str "city not found")]), "raw"⟩ =
      ReqResult.providerError 404
        (specMessage ⟨404, some (Json.obj [("message", Json.str "city not found")]), "raw"⟩) ∧
    request ⟨500, none, "<html>"⟩ =
      ReqResult.providerError 500 (specMessage ⟨500, none, "<html>"⟩) ∧
    request ⟨200, some (Json.arr []), "[]"⟩ = ReqResult.ok (Json.arr []) :=
  ⟨request_error_translation.1 _ (by decide),
   request_error_translation.1 _ (by decide),
   request_error_translation.2 _ rfl (Json.arr []) rfl⟩

/-- A geocoding candidate dict as used by the source: the keys it reads are
`name`, `local_names` (a language-code → name map), `country`, `lat`, `lon`;
each may be absent (`Option` / empty list).  Coordinates are opaque
pass-through values in every claim, carried as integers. -/
structure Loc where
  name : Option String
  local_names : List (String × String)
  country : Option String
  lat : Option Int
  lon : Option Int
deriving DecidableEq, Repr

/-- A current-weather response dict, restricted to the fields the modelled
claims depend on (`name`, `sys.country`, `timezone`, `sys.sunrise`,
`sys.sunset`); the remaining display fields are irrelevant to every claim and
are not modelled. -/
structure WeatherData where
  name : Option String
  sys_country : Option String
  timezone : Option Int
  sunrise : Option Int
  sunset : Option Int
deriving DecidableEq, Repr

/-- A forecast response.  The flow hands it to the presentation layer; the
claims depend only on which forecast calls are issued, so the payload is
carried opaquely through the two fields the flow reads directly
(`forecast.get("list", [])` item timestamps and `city.timezone`). -/
structure ForecastData where
  list : List Int
  city_timezone : Option Int
deriving DecidableEq, Repr

/-- One provider (network) call, with the parameters the source passes. -/
inductive PCall where
  | geocode (q : String) (lang : String)
  | weatherByCoords (lat lon : Int) (units lang : String)
  | weatherByName (city units lang : String)
  | forecastByCoords (lat lon : Int) (units lang : String)
deriving DecidableEq, Repr

/-- A deterministic model of the provider: the parsed response each endpoint
returns for given parameters.  Every function models a successful (HTTP 200,
parseable) reply; the HTTP error translation is verified separately on
`request`. -/
structure World where
  geocodeRes : String → String → List Loc
  weatherByCoordsRes : Int → Int → String → String → WeatherData
  weatherByNameRes : String → String → String → WeatherData
  forecastRes : Int → Int → String → String → ForecastData

/-- `OpenWeatherClient.resolve_city_to_coords`: geocode with `limit=1` and
return the first candidate, or `None` when the result list is empty.  The
second component is the provider-call trace of the operation. -/
def resolve_city_to_coords (w : World) (city lang : String) :
    Option Loc × List PCall :=
  ((w.geocodeRes city lang).head?, [PCall.geocode city lang])

/-- Python `d.get(lang, dflt)` on the `local_names` dict. -/
def localNamesGet (local_names : List (String × String)) (lang : String)
    (dflt : String) : String :=
  match local_names.lookup lang with
  | some v => v
  | none => dflt

/-- The body of `Home.fetch_current_weather` (without its `st.cache_data`
wrapper): resolve the city to coordinates; when a candidate with `lat` and
`lon` exists, fetch current weather by coordinates and overwrite the
snapshot's `name` (preferring a truthy localized name:
`loc.get("local_names", {}).get(lang, loc["name"]) or loc["name"]`) and
`sys.country` with the geocoded values; otherwise fall back to the legacy
by-name lookup `get_current_weather`. -/
def fetch_current_weather_core (w : World) (city units lang : String) :
    WeatherData × List PCall :=
  let r := resolve_city_to_coords w city lang
  match r.1 with
  | some loc =>
    match loc.lat, loc.lon with
    | some la, some lo =>
      let data := w.weatherByCoordsRes la lo units lang
      let data :=
        match loc.name with
        | some n =>
          let disp := localNamesGet loc.local_names lang n
          { data with name := some (if disp = "" then n else disp) }
        | none => data
      let data :=
        match loc.country with
        | some c => { data with sys_country := some c }
        | none => data
      (data, r.2 ++ [PCall.weatherByCoords la lo units lang])
    | _, _ =>
      (w.weatherByNameRes city units lang, r.2 ++ [PCall.weatherByName city units lang])
  | none =>
    (w.weatherByNameRes city units lang, r.2 ++ [PCall.weatherByName city units lang])

/-- The memoisation state of the two `st.cache_data`-decorated functions:
argument tuple ↦ (stored-at time, value), newest entry first. -/
structure CacheState where
  cw : List ((String × String × String × String) × (Nat × WeatherData))
  locs : List ((String × String × String) × (Nat × Option Loc))
deriving DecidableEq

/-- The empty cache (fresh process). -/
def emptyCache : CacheState := ⟨[], []⟩

/-- First-match association lookup (dict lookup on the cache's key tuples). -/
def alookup {κ α : Type} [DecidableEq κ] : List (κ × α) → κ → Option α
  | [], _ => none
  | (k, v) :: rest, key => if key = k then some v else alookup rest key

/-- Cache lookup with TTL: an entry older than `ttl` seconds is treated as
absent and will be recomputed. -/
def cacheLookup {κ α : Type} [DecidableEq κ] (entries : List (κ × (Nat × α)))
    (key : κ) (ttl now : Nat) : Option α :=
  match alookup entries key with
  | some (t, v) => if now - t ≤ ttl then some v else none
  | none => none

/-- `Home.fetch_current_weather` with its `@st.cache_data(ttl=300)` wrapper:
a fresh value is computed (issuing provider calls) only on a cache miss;
a hit issues no provider call.  The cache key is the argument tuple
`(city, units, lang, api_key)`. -/
def fetch_current_weather (w : World) (now : Nat) (cs : CacheState)
    (city units lang api_key : String) :
    WeatherData × List PCall × CacheState :=
  let key := (city, units, lang, api_key)
  match cacheLookup cs.cw key 300 now with
  | some v => (v, [], cs)
  | none =>
    let r := fetch_current_weather_core w city units lang
    (r.1, r.2, { cs with cw := (key, (now, r.1)) :: cs.cw })

/-- `Home.resolve_loc` with its `@st.cache_data(ttl=86400)` wrapper, caching
`resolve_city_to_coords` on the key `(city, lang, api_key)`. -/
def resolve_loc (w : World) (now : Nat) (cs : CacheState)
    (city lang api_key : String) :
    Option Loc × List PCall × CacheState :=
  let key := (city, lang, api_key)
  match cacheLookup cs.locs key 86400 now with
  | some v => (v, [], cs)
  | none =>
    let r := resolve_city_to_coords w city lang
    (r.1, r.2, { cs with locs := (key, (now, r.1)) :: cs.locs })

/-- What the module-level flow of `Home.py` renders for one set of inputs. -/
inductive Outcome where
  /-- `st.info("도시 이름을 입력하세요.")`: blank city prompt. -/
  | promptCity
  /-- Non-blank city but empty API key: the main block renders nothing
  (only the earlier missing-key warning). -/
  | noQuery
  /-- `st.error("도시를 찾을 수 없습니다. ...")` followed by `st.stop()`. -/
  | cityNotFound
  /-- The `KeyError` raised by `loc["lat"]` / `loc["lon"]` at the forecast
  call, caught by the surrounding `except` and rendered as an error. -/
  | keyError
  /-- Full render: current-weather snapshot and forecast payload. -/
  | success (data : WeatherData) (forecast : ForecastData)
deriving DecidableEq

/-- The module-level query flow of `Home.py` (lines 123–274): the
`if city.strip() and api_key:` guard, cached location resolution, unit
selection, cached current-weather fetch, and the uncached forecast fetch.
Returns the rendered outcome, the provider calls issued by this invocation,
and the updated cache. -/
def queryFlow (w : World) (now : Nat) (cs : CacheState)
    (city unit_pref lang api_key : String) :
    Outcome × List PCall × CacheState :=
  if pyStrip city ≠ "" ∧ api_key ≠ "" then
    let rl := resolve_loc w now cs (pyStrip city) lang api_key
    match rl.1 with
    | none => (Outcome.cityNotFound, rl.2.1, rl.2.2)
    | some loc =>
      let auto_units := choose_units_for_country loc.country
      let units := select_units unit_pref auto_units
      let rf := fetch_current_weather w now rl.2.2 (pyStrip city) units lang api_key
      match loc.lat, loc.lon with
      | some la, some lo =>
        (Outcome.success rf.1 (w.forecastRes la lo units lang),
         rl.2.1 ++ rf.2.1 ++ [PCall.forecastByCoords la lo units lang],
         rf.2.2)
      | _, _ => (Outcome.keyError, rl.2.1 ++ rf.2.1, rf.2.2)
  else if pyStrip city = "" then (Outcome.promptCity, [], cs)
  else (Outcome.noQuery, [], cs)

/-- C8: a city input that is empty or whitespace-only (`city.strip()` falsy)
is rejected with the input prompt before anything else happens: the flow
issues no provider call of any kind and leaves the cache untouched, for every
world, cache state, time, unit preference, language and API key. -/
theorem queryFlow_blank_city_no_calls
    (w : World) (now : Nat) (cs : CacheState)
    (city unit_pref lang api_key : String) (h : pyStrip city = "") :
    queryFlow w now cs city unit_pref lang api_key = (Outcome.promptCity, [], cs) := by
  simp [queryFlow, h]

/-- Witness for `queryFlow_blank_city_no_calls` on a whitespace-only input. -/
theorem queryFlow_blank_city_no_calls_witness :
    queryFlow ⟨fun _ _ => [], fun _ _ _ _ => ⟨none, none, none, none, none⟩,
        fun _ _ _ => ⟨none, none, none, none, none⟩, fun _ _ _ _ => ⟨[], none⟩⟩
      0 emptyCache "   " "자동(위치 기준)" "kr" "key" =
      (Outcome.promptCity, [], emptyCache) :=
  queryFlow_blank_city_no_calls _ 0 emptyCache "   " _ "kr" "key" (by decide)

/-- C5: when a geocoded candidate (with coordinates and a default name) is
used, the snapshot's display name is the localized name for the requested
language when that entry exists and is non-empty, and the candidate's default
name otherwise — in particular a present-but-empty localized entry does not
override the default name. -/
theorem display_name_localization
    (w : World) (city units lang : String) (loc : Loc) (rest : List Loc)
    (la lo : Int) (n : String)
    (hgeo : w.geocodeRes city lang = loc :: rest)
    (hlat : loc.lat = some la) (hlon : loc.lon = some lo)
    (hname : loc.name = some n) :
    (∀ ln, loc.local_names.lookup lang = some ln → ln ≠ "" →
        (fetch_current_weather_core w city units lang).1.name = some ln) ∧
    ((loc.local_names.lookup lang = none ∨ loc.local_names.lookup lang = some "") →
        (fetch_current_weather_core w city units lang).1.name = some n) := by
  constructor
  · intro ln hln hln'
    simp [fetch_current_weather_core, resolve_city_to_coords, hgeo, hlat, hlon,
      hname, localNamesGet, hln, hln']
    cases hc : loc.country <;> simp [hc]
  · intro hcase
    rcases hcase with hln | hln <;>
      · simp [fetch_current_weather_core, resolve_city_to_coords, hgeo, hlat,
          hlon, hname, localNamesGet, hln]
        cases hc : loc.country <;> simp [hc]

/-- The geocode candidate of the spec's Seoul example. -/
def locSeoul : Loc :=
  ⟨some "서울", [("en", "Seoul")], some "KR", some 37, some 126⟩

/-- A provider world answering every geocode with the Seoul candidate. -/
def wSeoul : World :=
  ⟨fun _ _ => [locSeoul], fun _ _ _ _ => ⟨some "Seoul", some "KR", some 32400, some 1, some 2⟩,
   fun _ _ _ => ⟨none, none, none, none, none⟩, fun _ _ _ _ => ⟨[], none⟩⟩

/-- Witness for `display_name_localization`: the spec's Seoul example —
`lang="en"` shows `"Seoul"`, `lang="fr"` (no such localized entry) shows the
default `"서울"`. -/
theorem display_name_localization_witness :
    (fetch_current_weather_core wSeoul "Seoul" "metric" "en").1.name = some "Seoul" ∧
    (fetch_current_weather_core wSeoul "Seoul" "metric" "fr").1.name = some "서울" :=
  ⟨(display_name_localization wSeoul "Seoul" "metric" "en" locSeoul [] 37 126 "서울" rfl
      rfl rfl rfl).1 "Seoul" (by decide) (by decide),
   (display_name_localization wSeoul "Seoul" "metric" "fr" locSeoul [] 37 126 "서울" rfl
      rfl rfl rfl).2 (Or.inl (by decide))⟩

/-- A weather snapshot with every modelled field absent. -/
def wdNone : WeatherData := ⟨none, none, none, none, none⟩

/-- A provider world whose geocoder finds no candidate for any query. -/
def wNoCandidates : World :=
  ⟨fun _ _ => [], fun _ _ _ _ => wdNone, fun _ _ _ => wdNone, fun _ _ _ _ => ⟨[], none⟩⟩

/-- C1 counterexample: when geocoding returns zero candidates, the
module-level flow does not fall back to the name-based lookup and does
surface the error — for the world with no geocoding candidates and the query
"Atlantis", the flow renders the "city not found" error and stops, and no
`weatherByName` call appears in the provider-call trace, refuting the claim
that the fallback runs and the error stays hidden. -/
theorem queryFlow_notfound_fallback_refuted :
    ¬(∀ (w : World) (now : Nat) (cs : CacheState) (city pref lang key : String),
        pyStrip city ≠ "" → key ≠ "" → w.geocodeRes (pyStrip city) lang = [] →
        ∃ u, PCall.weatherByName (pyStrip city) u lang ∈
              (queryFlow w now cs city pref lang key).2.1 ∧
            (queryFlow w now cs city pref lang key).1 ≠ Outcome.cityNotFound) := by
  intro h
  obtain ⟨u, hmem, -⟩ := h wNoCandidates 0 emptyCache "Atlantis" "자동(위치 기준)"
    "en" "key" (by decide) (by decide) rfl
  have htr : (queryFlow wNoCandidates 0 emptyCache "Atlantis" "자동(위치 기준)"
      "en" "key").2.1 = [PCall.geocode "Atlantis" "en"] := rfl
  rw [htr] at hmem
  simp at hmem

/-- C1 (amended): when geocoding returns zero candidates the module-level
query flow surfaces the "city not found" error and stops after the single
geocode call — the name-based fallback is not reached from there.  The
fallback lives inside `fetch_current_weather`: when that function's own
geocode step yields no candidate, it returns the by-name current-weather
snapshot, issuing no forecast call. -/
theorem queryFlow_notfound_amended :
    (∀ (w : World) (now : Nat) (city pref lang key : String),
        pyStrip city ≠ "" → key ≠ "" →
        w.geocodeRes (pyStrip city) lang = [] →
        (queryFlow w now emptyCache city pref lang key).1 = Outcome.cityNotFound ∧
        (queryFlow w now emptyCache city pref lang key).2.1 =
          [PCall.geocode (pyStrip city) lang]) ∧
    (∀ (w : World) (city units lang : String),
        w.geocodeRes city lang = [] →
        fetch_current_weather_core w city units lang =
          (w.weatherByNameRes city units lang,
           [PCall.geocode city lang, PCall.weatherByName city units lang])) := by
  constructor
  · intro w now city pref lang key h1 h2 hgeo
    constructor <;>
      simp [queryFlow, h1, h2, resolve_loc, cacheLookup, alookup, emptyCache,
        resolve_city_to_coords, hgeo]
  · intro w city units lang hgeo
    simp [fetch_current_weather_core, resolve_city_to_coords, hgeo]

/-- Witness for `queryFlow_notfound_amended` at the "Atlantis" query. -/
theorem queryFlow_notfound_amended_witness :
    (queryFlow wNoCandidates 0 emptyCache "Atlantis" "자동(위치 기준)" "en" "key").1 =
      Outcome.cityNotFound ∧
    fetch_current_weather_core wNoCandidates "Atlantis" "metric" "en" =
      (wNoCandidates.weatherByNameRes "Atlantis" "metric" "en",
       [PCall.geocode "Atlantis" "en", PCall.weatherByName "Atlantis" "metric" "en"]) :=
  ⟨(queryFlow_notfound_amended.1 wNoCandidates 0 "Atlantis" "자동(위치 기준)" "en"
      "key" (by decide) (by decide) rfl).1,
   queryFlow_notfound_amended.2 wNoCandidates "Atlantis" "metric" "en" rfl⟩

/-- C2 counterexample: invoking the flow twice with identical
`(city, unit preference, lang, api_key)` only ten seconds apart (well within
both TTL windows) still issues a provider call on the second invocation —
the forecast fetch of `Home.py` is not decorated with `st.cache_data`, so it
hits the provider every time.  This refutes the claim that the second
invocation performs no additional provider calls. -/
theorem queryFlow_second_call_not_free :
    ¬(∀ (w : World) (t₁ t₂ : Nat) (city pref lang key : String),
        t₁ ≤ t₂ → t₂ - t₁ ≤ 300 →
        (queryFlow w t₂ (queryFlow w t₁ emptyCache city pref lang key).2.2
            city pref lang key).2.1 = []) := by
  intro h
  have h2 := h wSeoul 0 10 "Seoul" "자동(위치 기준)" "en" "key" (by decide) (by decide)
  have h3 : (queryFlow wSeoul 10
        (queryFlow wSeoul 0 emptyCache "Seoul" "자동(위치 기준)" "en" "key").2.2
        "Seoul" "자동(위치 기준)" "en" "key").2.1 =
      [PCall.forecastByCoords 37 126 "metric" "en"] := by decide
  rw [h3] at h2
  exact List.noConfusion h2

/-- C2 (amended): within the 300-second TTL window, a repeat invocation with
identical inputs re-serves the geocoding result and the current-weather
snapshot from the two `st.cache_data` caches without any provider call, but
still issues exactly one provider call: the uncached forecast fetch.  (The
first invocation from a fresh cache issues four calls: two geocodes — one in
`resolve_loc`, one inside `fetch_current_weather` — one current-weather call
and one forecast call.) -/
theorem queryFlow_cache_amended
    (w : World) (t₁ t₂ : Nat) (city pref lang key : String)
    (loc : Loc) (rest : List Loc) (la lo : Int)
    (h1 : pyStrip city ≠ "") (h2 : key ≠ "")
    (hgeo : w.geocodeRes (pyStrip city) lang = loc :: rest)
    (hlat : loc.lat = some la) (hlon : loc.lon = some lo)
    (hle : t₁ ≤ t₂) (hwin : t₂ - t₁ ≤ 300) :
    (queryFlow w t₁ emptyCache city pref lang key).2.1 =
      [PCall.geocode (pyStrip city) lang] ++
        (fetch_current_weather_core w (pyStrip city)
          (select_units pref (choose_units_for_country loc.country)) lang).2 ++
        [PCall.forecastByCoords la lo
          (select_units pref (choose_units_for_country loc.country)) lang] ∧
    (queryFlow w t₂ (queryFlow w t₁ emptyCache city pref lang key).2.2
        city pref lang key).2.1 =
      [PCall.forecastByCoords la lo
        (select_units pref (choose_units_for_country loc.country)) lang] := by
  have e1 : resolve_loc w t₁ emptyCache (pyStrip city) lang key =
      (some loc, [PCall.geocode (pyStrip city) lang],
       ⟨[], [((pyStrip city, lang, key), (t₁, some loc))]⟩) := by
    simp [resolve_loc, cacheLookup, alookup, emptyCache, resolve_city_to_coords, hgeo]
  have e2 : ∀ u, fetch_current_weather w t₁
      ⟨[], [((pyStrip city, lang, key), (t₁, some loc))]⟩ (pyStrip city) u lang key =
      ((fetch_current_weather_core w (pyStrip city) u lang).1,
       (fetch_current_weather_core w (pyStrip city) u lang).2,
       ⟨[((pyStrip city, u, lang, key),
          (t₁, (fetch_current_weather_core w (pyStrip city) u lang).1))],
        [((pyStrip city, lang, key), (t₁, some loc))]⟩) := by
    intro u
    simp [fetch_current_weather, cacheLookup, alookup]
  have efirst : queryFlow w t₁ emptyCache city pref lang key =
      (Outcome.success
        (fetch_current_weather_core w (pyStrip city)
          (select_units pref (choose_units_for_country loc.country)) lang).1
        (w.forecastRes la lo
          (select_units pref (choose_units_for_country loc.country)) lang),
       [PCall.geocode (pyStrip city) lang] ++
         (fetch_current_weather_core w (pyStrip city)
           (select_units pref (choose_units_for_country loc.country)) lang).2 ++
         [PCall.forecastByCoords la lo
           (select_units pref (choose_units_for_country loc.country)) lang],
       ⟨[((pyStrip city, select_units pref (choose_units_for_country loc.country),
           lang, key),
          (t₁, (fetch_current_weather_core w (pyStrip city)
            (select_units pref (choose_units_for_country loc.country)) lang).1))],
        [((pyStrip city, lang, key), (t₁, some loc))]⟩) := by
    simp only [queryFlow, if_pos (And.intro h1 h2), e1, e2, hlat, hlon]
  have hwin' : t₂ - t₁ ≤ 86400 := le_trans hwin (by norm_num)
  have e3 : resolve_loc w t₂
      ⟨[((pyStrip city, select_units pref (choose_units_for_country loc.country),
          lang, key),
         (t₁, (fetch_current_weather_core w (pyStrip city)
           (select_units pref (choose_units_for_country loc.country)) lang).1))],
       [((pyStrip city, lang, key), (t₁, some loc))]⟩ (pyStrip city) lang key =
      (some loc, [],
       ⟨[((pyStrip city, select_units pref (choose_units_for_country loc.country),
           lang, key),
          (t₁, (fetch_current_weather_core w (pyStrip city)
            (select_units pref (choose_units_for_country loc.country)) lang).1))],
        [((pyStrip city, lang, key), (t₁, some loc))]⟩) := by
    simp [resolve_loc, cacheLookup, alookup, hwin']
  have e4 : fetch_current_weather w t₂
      ⟨[((pyStrip city, select_units pref (choose_units_for_country loc.country),
          lang, key),
         (t₁, (fetch_current_weather_core w (pyStrip city)
           (select_units pref (choose_units_for_country loc.country)) lang).1))],
       [((pyStrip city, lang, key), (t₁, some loc))]⟩ (pyStrip city)
      (select_units pref (choose_units_for_country loc.country)) lang key =
      ((fetch_current_weather_core w (pyStrip city)
         (select_units pref (choose_units_for_country loc.country)) lang).1, [],
       ⟨[((pyStrip city, select_units pref (choose_units_for_country loc.country),
           lang, key),
          (t₁, (fetch_current_weather_core w (pyStrip city)
            (select_units pref (choose_units_for_country loc.country)) lang).1))],
        [((pyStrip city, lang, key), (t₁, some loc))]⟩) := by
    simp [fetch_current_weather, cacheLookup, alookup, hwin]
  constructor
  · rw [efirst]
  · rw [efirst]
    simp only [queryFlow, if_pos (And.intro h1 h2), e3, e4, hlat, hlon]
    simp

/-- Witness for `queryFlow_cache_amended`: the Seoul world, second run ten
seconds after the first. -/
theorem queryFlow_cache_amended_witness :
    (queryFlow wSeoul 10
        (queryFlow wSeoul 0 emptyCache "Seoul" "자동(위치 기준)" "en" "key").2.2
        "Seoul" "자동(위치 기준)" "en" "key").2.1 =
      [PCall.forecastByCoords 37 126
        (select_units "자동(위치 기준)" (choose_units_for_country locSeoul.country)) "en"] :=
  (queryFlow_cache_amended wSeoul 0 10 "Seoul" "자동(위치 기준)" "en" "key"
    locSeoul [] 37 126 (by decide) (by decide) rfl rfl rfl
    (by decide) (by decide)).2

/-- The unit-system parameter a provider call carries (`none` for geocoding,
which takes no `units` parameter). -/
def callUnits : PCall → Option String
  | PCall.geocode _ _ => none
  | PCall.weatherByCoords _ _ u _ => some u
  | PCall.weatherByName _ u _ => some u
  | PCall.forecastByCoords _ _ u _ => some u

/-- Every provider call issued by one `fetch_current_weather_core` run
carries exactly the `units` argument it was invoked with. -/
theorem fetch_core_units (w : World) (city u lang : String) :
    ∀ c ∈ (fetch_current_weather_core w city u lang).2,
      callUnits c = none ∨ callUnits c = some u := by
  intro c hc
  unfold fetch_current_weather_core resolve_city_to_coords at hc
  rcases hres : (w.geocodeRes city lang).head? with _ | loc
  · simp only [hres] at hc
    simp at hc
    rcases hc with rfl | rfl <;> simp [callUnits]
  · simp only [hres] at hc
    rcases hla : loc.lat with _ | la <;> rcases hlo : loc.lon with _ | lo <;>
      simp only [hla, hlo] at hc <;> simp at hc <;>
      (rcases hc with rfl | rfl <;> simp [callUnits])

/-- Every provider call issued by one cached `fetch_current_weather` run
carries exactly the `units` argument it was invoked with. -/
theorem fetch_cached_units (w : World) (now : Nat) (cs : CacheState)
    (city u lang key : String) :
    ∀ c ∈ (fetch_current_weather w now cs city u lang key).2.1,
      callUnits c = none ∨ callUnits c = some u := by
  intro c hc
  unfold fetch_current_weather at hc
  rcases hl : cacheLookup cs.cw (city, u, lang, key) 300 now with _ | v
  · simp only [hl] at hc
    exact fetch_core_units w city u lang c hc
  · simp only [hl] at hc
    simp at hc

/-- A cached `resolve_loc` run issues only geocode calls (no units). -/
theorem resolve_loc_units (w : World) (now : Nat) (cs : CacheState)
    (city lang key : String) :
    ∀ c ∈ (resolve_loc w now cs city lang key).2.1, callUnits c = none := by
  intro c hc
  unfold resolve_loc resolve_city_to_coords at hc
  rcases hl : cacheLookup cs.locs (city, lang, key) 86400 now with _ | v <;>
    simp only [hl] at hc
  · simp at hc
    simp [hc, callUnits]
  · simp at hc

/-- C9: within one query-flow invocation the unit system is resolved once —
`select_units` applied to the user preference and the country of the resolved
candidate — and every provider call that takes a unit system (current weather
by coordinates or by name, forecast) carries exactly that value: current
weather and forecast are never requested in different unit systems. -/
theorem queryFlow_units_consistent
    (w : World) (now : Nat) (cs : CacheState) (city pref lang key : String)
    (loc : Loc)
    (hloc : (resolve_loc w now cs (pyStrip city) lang key).1 = some loc) :
    ∀ c ∈ (queryFlow w now cs city pref lang key).2.1,
      callUnits c = none ∨
      callUnits c = some (select_units pref (choose_units_for_country loc.country)) := by
  intro c hc
  by_cases hg : pyStrip city ≠ "" ∧ key ≠ ""
  · rw [queryFlow, if_pos hg] at hc
    simp only [hloc] at hc
    rcases hla : loc.lat with _ | la <;> rcases hlo : loc.lon with _ | lo <;>
      simp only [hla, hlo, List.mem_append, List.mem_singleton] at hc
    · rcases hc with hc | hc
      · exact Or.inl (resolve_loc_units w now cs (pyStrip city) lang key c hc)
      · exact fetch_cached_units w now _ (pyStrip city) _ lang key c hc
    · rcases hc with hc | hc
      · exact Or.inl (resolve_loc_units w now cs (pyStrip city) lang key c hc)
      · exact fetch_cached_units w now _ (pyStrip city) _ lang key c hc
    · rcases hc with hc | hc
      · exact Or.inl (resolve_loc_units w now cs (pyStrip city) lang key c hc)
      · exact fetch_cached_units w now _ (pyStrip city) _ lang key c hc
    · rcases hc with (hc | hc) | hc
      · exact Or.inl (resolve_loc_units w now cs (pyStrip city) lang key c hc)
      · exact fetch_cached_units w now _ (pyStrip city) _ lang key c hc
      · subst hc
        exact Or.inr rfl
  · rw [queryFlow, if_neg hg] at hc
    by_cases hb : pyStrip city = "" <;> simp [hb] at hc

/-- Witness for `queryFlow_units_consistent`: in the Seoul world the
current-weather-by-coordinates call of the flow carries the resolved units. -/
theorem queryFlow_units_consistent_witness :
    callUnits (PCall.weatherByCoords 37 126 "metric" "en") = none ∨
    callUnits (PCall.weatherByCoords 37 126 "metric" "en") =
      some (select_units "자동(위치 기준)" (choose_units_for_country locSeoul.country)) :=
  queryFlow_units_consistent wSeoul 0 emptyCache "Seoul" "자동(위치 기준)" "en" "key"
    locSeoul rfl (PCall.weatherByCoords 37 126 "metric" "en") (by decide)

/-- A proleptic-Gregorian civil date-time, as produced by python's
`datetime.fromtimestamp(•, tz=timezone.utc)`. -/
structure DateTimeUTC where
  year : Int
  month : Nat
  day : Nat
  hour : Nat
  minute : Nat
  second : Nat
deriving DecidableEq, Repr

/-- Days-since-1970-01-01 to civil `(year, month, day)` (the standard
`civil_from_days` algorithm, with mathematical floor division so negative
day counts are handled like python's `datetime`). -/
def civilFromDays (z0 : Int) : Int × Nat × Nat :=
  let z := z0 + 719468
  let era : Int := z.fdiv 146097
  let doe : Nat := (z.emod 146097).toNat
  let yoe : Nat := (doe - doe / 1460 + doe / 36524 - doe / 146096) / 365
  let doy : Nat := doe - (365 * yoe + yoe / 4 - yoe / 100)
  let mp : Nat := (5 * doy + 2) / 153
  let d : Nat := doy - (153 * mp + 2) / 5 + 1
  let m : Nat := if mp < 10 then mp + 3 else mp - 9
  (era * 400 + yoe + (if m ≤ 2 then 1 else 0), m, d)

/-- `datetime.fromtimestamp(t, tz=timezone.utc)`: split the epoch second
count into days and seconds-of-day by floor division and convert the days to
a civil date. -/
def datetime_fromtimestamp_utc (t : Int) : DateTimeUTC :=
  let sod : Nat := (t.emod 86400).toNat
  let c := civilFromDays (t.fdiv 86400)
  ⟨c.1, c.2.1, c.2.2, sod / 3600, sod % 3600 / 60, sod % 60⟩

/-- Zero-padding to two digits, as strftime's `%m`/`%d`/`%H`/`%M` do. -/
def pad2 (n : Nat) : String :=
  if n < 10 then "0" ++ toString n else toString n

/-- `strftime("%Y-%m-%d %H:%M")` on a UTC datetime (for the four-digit-and-up
years every weather timestamp has, `%Y` is the plain decimal year). -/
def strftime_YmdHM (dt : DateTimeUTC) : String :=
  toString dt.year ++ "-" ++ pad2 dt.month ++ "-" ++ pad2 dt.day ++ " " ++
    pad2 dt.hour ++ ":" ++ pad2 dt.minute

/-- `Home.fmt_ts` (closure over the snapshot's `timezone` offset `tz`):
`if not ts: return "—"`, else format `datetime.fromtimestamp(ts + tz,
tz=timezone.utc)` with `"%Y-%m-%d %H:%M"`.  `ts = None` and `ts = 0` are both
falsy. -/
def fmt_ts (tz : Int) (ts : Option Int) : String :=
  match ts with
  | none => "—"
  | some t =>
    if t = 0 then "—"
    else strftime_YmdHM (datetime_fromtimestamp_utc (t + tz))

/-- C10: a missing timestamp and the exact epoch-0 timestamp both render as
the placeholder `"—"` — they are indistinguishable in the output — and every
nonzero timestamp `ts` renders deterministically as the `"%Y-%m-%d %H:%M"`
string of `ts + tz` interpreted as UTC. -/
theorem fmt_ts_spec (tz : Int) :
    fmt_ts tz none = "—" ∧
    fmt_ts tz (some 0) = "—" ∧
    fmt_ts tz (some 0) = fmt_ts tz none ∧
    ∀ ts : Int, ts ≠ 0 →
      fmt_ts tz (some ts) = strftime_YmdHM (datetime_fromtimestamp_utc (ts + tz)) := by
  refine ⟨rfl, rfl, rfl, fun ts h => ?_⟩
  simp [fmt_ts, h]

/-- Witness for `fmt_ts_spec`: the spec's round-trip example
`epoch = 1700000000, offset = 32400` renders as `2023-11-15 07:13`. -/
theorem fmt_ts_spec_witness :
    fmt_ts 32400 (some 1700000000) =
      strftime_YmdHM (datetime_fromtimestamp_utc (1700000000 + 32400)) ∧
    fmt_ts 32400 (some 1700000000) = "2023-11-15 07:13" := by
  have h := (fmt_ts_spec 32400).2.2.2 1700000000 (by decide)
  exact ⟨h, by rw [h]; decide⟩

/-- C4: an explicit Celsius choice (`"섭씨 (°C)"`) forces `"metric"` and an
explicit Fahrenheit choice (`"화씨 (°F)"`) forces `"imperial"`, whatever
country the geocoder resolved; the country-based auto-detection
`choose_units_for_country` determines the result only for the `"자동(위치 기준)"`
("auto") preference.  The three strings are the exact options offered by the
sidebar selectbox of `Home.py`. -/
theorem select_units_override_wins (country : Option String) :
    select_units "섭씨 (°C)" (choose_units_for_country country) = "metric" ∧
    select_units "화씨 (°F)" (choose_units_for_country country) = "imperial" ∧
    select_units "자동(위치 기준)" (choose_units_for_country country) =
      choose_units_for_country country := by
  refine ⟨?_, ?_, ?_⟩
  · have h0 : pyIn "섭씨" "섭씨 (°C)" = true := by decide
    simp [select_units, h0]
  · have h1 : pyIn "섭씨" "화씨 (°F)" = false := by decide
    have h2 : pyIn "화씨" "화씨 (°F)" = true := by decide
    simp [select_units, h1, h2]
  · have h1 : pyIn "섭씨" "자동(위치 기준)" = false := by decide
    have h2 : pyIn "화씨" "자동(위치 기준)" = false := by decide
    simp [select_units, h1, h2]

/-- C7: constructing the client with no key argument (or an empty one) and no
`OPENWEATHER_API_KEY` environment value fails with the configuration error;
a non-empty key from either source constructs the client without failure.
Construction is a pure function in the embedding: no provider call occurs. -/
theorem client_init_key_validation :
    (∀ a e b, (a = none ∨ a = some "") → (e = none ∨ e = some "") →
        OpenWeatherClient.init a e b = Except.error missingKeyMsg) ∧
    (∀ k, k ≠ "" → ∀ e b,
        OpenWeatherClient.init (some k) e b = Except.ok ⟨k, rstripSlash b⟩) ∧
    (∀ a k, (a = none ∨ a = some "") → k ≠ "" → ∀ b,
        OpenWeatherClient.init a (some k) b = Except.ok ⟨k, rstripSlash b⟩) := by
  refine ⟨fun a e b ha he => ?_, fun k hk e b => ?_, fun a k ha hk b => ?_⟩
  · rcases ha with rfl | rfl <;> rcases he with rfl | rfl <;>
      simp [OpenWeatherClient.init, pyOrOpt]
  · simp [OpenWeatherClient.init, pyOrOpt, hk]
  · rcases ha with rfl | rfl <;> simp [OpenWeatherClient.init, pyOrOpt, hk]

/-- Witness for `client_init_key_validation` at concrete keys. -/
theorem client_init_key_validation_witness :
    OpenWeatherClient.init none none "https://api.openweathermap.org/data/2.5" =
      Except.error missingKeyMsg ∧
    OpenWeatherClient.init (some "") (some "") "b" = Except.error missingKeyMsg ∧
    OpenWeatherClient.init (some "k1") none "u/" = Except.ok ⟨"k1", rstripSlash "u/"⟩ ∧
    OpenWeatherClient.init none (some "k2") "u" = Except.ok ⟨"k2", rstripSlash "u"⟩ :=
  ⟨client_init_key_validation.1 none none _ (Or.inl rfl) (Or.inl rfl),
   client_init_key_validation.1 (some "") (some "") _ (Or.inr rfl) (Or.inr rfl),
   client_init_key_validation.2.1 "k1" (by decide) none "u/",
   client_init_key_validation.2.2 none "k2" (Or.inl rfl) (by decide) "u"⟩

/-- C3: for every country code whose case-insensitive form is in {US, LR, MM},
`choose_units_for_country` returns `"imperial"`; for every other code,
including an absent or empty one, it returns `"metric"`.  The function is a
pure Lean function of its argument (no I/O in the embedding). -/
theorem choose_units_imperial_iff :
    (∀ c : String, (pyUpper c = "US" ∨ pyUpper c = "LR" ∨ pyUpper c = "MM") →
        choose_units_for_country (some c) = "imperial") ∧
    (∀ c : String, ¬(pyUpper c = "US" ∨ pyUpper c = "LR" ∨ pyUpper c = "MM") →
        choose_units_for_country (some c) = "metric") ∧
    choose_units_for_country none = "metric" ∧
    choose_units_for_country (some "") = "metric" := by
  refine ⟨fun c h => ?_, fun c h => ?_, rfl, rfl⟩
  · have hc : c ≠ "" := by
      rintro rfl
      rcases h with h | h | h <;> exact absurd h (by decide)
    simp [choose_units_for_country, hc, h]
  · by_cases hc : c = ""
    · simp [choose_units_for_country, hc]
    · simp [choose_units_for_country, hc, h]

/-- Witness for `choose_units_imperial_iff` at concrete country codes. -/
theorem choose_units_imperial_iff_witness :
    choose_units_for_country (some "us") = "imperial" ∧
    choose_units_for_country (some "Mm") = "imperial" ∧
    choose_units_for_country (some "KR") = "metric" :=
  ⟨choose_units_imperial_iff.1 "us" (by decide),
   choose_units_imperial_iff.1 "Mm" (by decide),
   choose_units_imperial_iff.2.1 "KR" (by decide)⟩
